import Mathlib

/-!
Verification of the dataframe I/O layer of `explorer`
(`src/native/explorer/src/dataframe/io.rs`), shallowly embedded in Lean.

The embedding follows the Rust source function by function: string-keyed
schemas are association lists with ordered-map (IndexMap) insertion, fallible
Rust functions returning `Result<T, ExplorerError>` become `Except
ExplorerError T`, and build-time `#[cfg(feature = ...)]` guards become
explicit functions of a build-configuration record.
-/

namespace Explorer

/-- The error type of the crate (`ExplorerError`), restricted to the variants
that `dataframe/io.rs` constructs: `Internal(String)` and `Other(String)`. -/
inductive ExplorerError where
  | Internal (msg : String)
  | Other (msg : String)
deriving DecidableEq

/-- Polars `TimeUnit`, as used by `dtype_from_str`. -/
inductive TimeUnit where
  | Milliseconds
  | Microseconds
  | Nanoseconds
deriving DecidableEq

/-- Polars `DataType`, restricted to the constructors this I/O layer can see:
the ones `dtype_from_str` produces plus the narrower numeric widths a reader
may infer before normalization. -/
inductive DataType where
  | Binary
  | Boolean
  | Categorical
  | Date
  | Datetime (unit : TimeUnit)
  | Float32
  | Float64
  | Int8
  | Int16
  | Int32
  | Int64
  | UInt8
  | UInt16
  | UInt32
  | UInt64
  | Utf8
deriving DecidableEq

/-- Substring containment on strings, used to state "the error message
contains the offending value". -/
def strContains (hay needle : String) : Prop :=
  needle.data <:+: hay.data

instance (hay needle : String) : Decidable (strContains hay needle) :=
  List.decidableInfix needle.data hay.data

theorem strData_append (a b : String) : (a ++ b).data = a.data ++ b.data := by
  cases a; cases b; rfl

theorem strContains_middle (pre s post : String) :
    strContains (pre ++ s ++ post) s := by
  show s.data <:+: (pre ++ s ++ post).data
  rw [strData_append, strData_append]
  exact ⟨pre.data, post.data, rfl⟩

/-- `dtype_from_str` (io.rs lines 90-104): decode a user-supplied type-name
string into a `DataType`; the Rust `match` on string literals becomes an
if-chain on string equality, with the same fixed fallback error. -/
def dtype_from_str (dtype : String) : Except ExplorerError DataType :=
  if dtype = "binary" then .ok .Binary
  else if dtype = "bool" then .ok .Boolean
  else if dtype = "cat" then .ok .Categorical
  else if dtype = "date" then .ok .Date
  else if dtype = "datetime[ms]" then .ok (.Datetime .Milliseconds)
  else if dtype = "datetime[ns]" then .ok (.Datetime .Nanoseconds)
  else if dtype = "datetime[μs]" then .ok (.Datetime .Microseconds)
  else if dtype = "f64" then .ok .Float64
  else if dtype = "i64" then .ok .Int64
  else if dtype = "str" then .ok .Utf8
  else .error (.Internal "Unrecognised datatype")

/-- A polars `Schema`: an ordered sequence of (column name, dtype) pairs. -/
abbrev Schema := List (String × DataType)

/-- Polars `Schema::with_column`, i.e. ordered-map (IndexMap) insertion: if
the name is already present its value is replaced in place, otherwise the
pair is appended at the end. -/
def Schema.with_column : Schema → String → DataType → Schema
  | [], name, dtype => [(name, dtype)]
  | (k, v) :: rest, name, dtype =>
    if k = name then (k, dtype) :: rest
    else (k, v) :: Schema.with_column rest name dtype

/-- The loop body of `schema_from_dtypes_pairs` (io.rs lines 81-88): fold the
pairs into a schema, aborting on the first unrecognised type name. -/
def schemaLoop : Schema → List (String × String) → Except ExplorerError Schema
  | schema, [] => .ok schema
  | schema, (name, dtype_str) :: rest =>
    match dtype_from_str dtype_str with
    | .error e => .error e
    | .ok dtype => schemaLoop (Schema.with_column schema name dtype) rest

/-- `schema_from_dtypes_pairs` (io.rs lines 81-88). The Rust `Arc` wrapper is
dropped: it does not affect the schema's contents. -/
def schema_from_dtypes_pairs (dtypes : List (String × String)) :
    Except ExplorerError Schema :=
  schemaLoop [] dtypes

/-- Polars `IpcCompression` (the non-streaming exchange-format vocabulary). -/
inductive IpcCompression where
  | LZ4
  | ZSTD
deriving DecidableEq

/-- `polars::export::arrow::io::ipc::write::Compression`, imported in io.rs as
`IpcStreamCompression` (the streaming vocabulary) — a distinct type from
`IpcCompression` despite the identical constructor names. -/
inductive IpcStreamCompression where
  | LZ4
  | ZSTD
deriving DecidableEq

/-- `decode_ipc_compression` (io.rs lines 417-425). -/
def decode_ipc_compression (compression : String) :
    Except ExplorerError IpcCompression :=
  if compression = "lz4" then .ok .LZ4
  else if compression = "zstd" then .ok .ZSTD
  else .error (.Other ("the algorithm " ++ compression ++
    " is not supported for IPC compression"))

/-- `decode_ipc_stream_compression` (io.rs lines 519-527). -/
def decode_ipc_stream_compression (compression : String) :
    Except ExplorerError IpcStreamCompression :=
  if compression = "lz4" then .ok .LZ4
  else if compression = "zstd" then .ok .ZSTD
  else .error (.Other ("the algorithm " ++ compression ++
    " is not supported for IPC stream compression"))

/-- The `match compression { Some(algo) => Some(decode_ipc_compression(algo)?),
None => None }` prologue shared by `df_to_ipc`, `df_to_ipc_cloud` and
`df_dump_ipc`. -/
def decode_ipc_compression_option (compression : Option String) :
    Except ExplorerError (Option IpcCompression) :=
  match compression with
  | some algo =>
    match decode_ipc_compression algo with
    | .error e => .error e
    | .ok c => .ok (some c)
  | none => .ok none

/-- The matching prologue of `df_to_ipc_stream`, `df_to_ipc_stream_cloud` and
`df_dump_ipc_stream`. -/
def decode_ipc_stream_compression_option (compression : Option String) :
    Except ExplorerError (Option IpcStreamCompression) :=
  match compression with
  | some algo =>
    match decode_ipc_stream_compression algo with
    | .error e => .error e
    | .ok c => .ok (some c)
  | none => .ok none

/-- Polars `CsvEncoding`. -/
inductive CsvEncoding where
  | Utf8
  | LossyUtf8
deriving DecidableEq

/-- The encoding match at the top of `df_from_csv` (io.rs lines 58-61) and
`df_load_csv` (lines 177-180): `"utf8-lossy"` maps to lossy decoding and the
wildcard arm maps every other string to strict UTF-8. -/
def csv_encoding_from_str (encoding : String) : CsvEncoding :=
  if encoding = "utf8-lossy" then CsvEncoding.LossyUtf8 else CsvEncoding.Utf8

/-- Polars `NullValues`: the library contract offers a uniform token list for
all columns (`AllColumns`), a single uniform token (`AllColumnsSingle`), and a
per-column assignment (`Named`). -/
inductive NullValues where
  | AllColumnsSingle (tok : String)
  | AllColumns (toks : List String)
  | Named (pairs : List (String × String))
deriving DecidableEq

/-- The null tokens a `NullValues` configuration assigns to a given column. -/
def nullTokensFor (nv : NullValues) (column : String) : List String :=
  match nv with
  | .AllColumnsSingle tok => [tok]
  | .AllColumns toks => toks
  | .Named pairs => (pairs.filter (fun p => p.1 = column)).map (fun p => p.2)

/-- The option record a polars `CsvReader` has accumulated after the builder
chain of `df_from_csv` / `df_load_csv`. -/
structure CsvReaderOptions where
  infer_schema_length : Option Nat
  has_header : Bool
  try_parse_dates : Bool
  n_rows : Option Nat
  delimiter : Nat
  skip_rows : Nat
  projection : Option (List Nat)
  rechunk : Bool
  encoding : CsvEncoding
  columns : Option (List String)
  dtypes : Option Schema
  null_values : Option NullValues
  end_of_line_char : Nat
deriving DecidableEq

/-- The reader-configuration phase of `df_from_csv` (io.rs lines 42-78):
every builder call of the Rust chain sets the corresponding field; byte-typed
arguments (`u8`) are carried as `Nat`. -/
def df_from_csv_options (infer_schema_length : Option Nat) (has_header : Bool)
    (stop_after_n_rows : Option Nat) (skip_rows : Nat)
    (projection : Option (List Nat)) (delimiter_as_byte : Nat)
    (do_rechunk : Bool) (column_names : Option (List String))
    (dtypes : List (String × String)) (encoding : String)
    (null_vals : List String) (parse_dates : Bool)
    (eol_delimiter : Option Nat) : Except ExplorerError CsvReaderOptions :=
  match schema_from_dtypes_pairs dtypes with
  | .error e => .error e
  | .ok schema =>
    .ok
      { infer_schema_length := infer_schema_length
        has_header := has_header
        try_parse_dates := parse_dates
        n_rows := stop_after_n_rows
        delimiter := delimiter_as_byte
        skip_rows := skip_rows
        projection := projection
        rechunk := do_rechunk
        encoding := csv_encoding_from_str encoding
        columns := column_names
        dtypes := some schema
        null_values := some (NullValues.AllColumns null_vals)
        end_of_line_char := eol_delimiter.getD 10 }

/-- The reader-configuration phase of `df_load_csv` (io.rs lines 161-199):
identical to `df_from_csv` except that the bytes come from an in-memory
binary instead of a file path. -/
def df_load_csv_options (infer_schema_length : Option Nat) (has_header : Bool)
    (stop_after_n_rows : Option Nat) (skip_rows : Nat)
    (projection : Option (List Nat)) (delimiter_as_byte : Nat)
    (do_rechunk : Bool) (column_names : Option (List String))
    (dtypes : List (String × String)) (encoding : String)
    (null_vals : List String) (parse_dates : Bool)
    (eol_delimiter : Option Nat) : Except ExplorerError CsvReaderOptions :=
  match schema_from_dtypes_pairs dtypes with
  | .error e => .error e
  | .ok schema =>
    .ok
      { infer_schema_length := infer_schema_length
        has_header := has_header
        try_parse_dates := parse_dates
        n_rows := stop_after_n_rows
        delimiter := delimiter_as_byte
        skip_rows := skip_rows
        projection := projection
        rechunk := do_rechunk
        encoding := csv_encoding_from_str encoding
        columns := column_names
        dtypes := some schema
        null_values := some (NullValues.AllColumns null_vals)
        end_of_line_char := eol_delimiter.getD 10 }

/-- A cell payload of a dataframe column; payloads are carried through
normalization unchanged, so their exact carrier is immaterial. -/
inductive Val where
  | vint (i : Int)
  | vfloat (q : Rat)
  | vbool (b : Bool)
  | vstr (s : String)
deriving DecidableEq

/-- One column of a dataframe: a name, a dtype, and the cells in row order
(`none` is a null). -/
structure Series where
  name : String
  dtype : DataType
  values : List (Option Val)
deriving DecidableEq

/-- A dataframe: its columns in order. -/
abbrev DataFrame := List Series

/-- Whether a dtype is numeric (integer of any width, or float). -/
def DataType.isNumeric : DataType → Bool
  | .Int8 | .Int16 | .Int32 | .Int64 => true
  | .UInt8 | .UInt16 | .UInt32 | .UInt64 => true
  | .Float32 | .Float64 => true
  | _ => false

/-- Modelled from the spec: the dtype mapping of `normalize_numeric_dtypes`
(`crate::dataframe`, not under `src/`): every integer width goes to `Int64`,
every float width to `Float64`, and non-numeric dtypes are untouched. -/
def normalizeDType : DataType → DataType
  | .Int8 | .Int16 | .Int32 | .Int64 => .Int64
  | .UInt8 | .UInt16 | .UInt32 | .UInt64 => .Int64
  | .Float32 | .Float64 => .Float64
  | d => d

/-- Modelled from the spec: numeric normalization of one column — a pure
dtype cast that preserves the cells (null positions and row order) exactly. -/
def Series.normalize (s : Series) : Series :=
  { s with dtype := normalizeDType s.dtype }

/-- Modelled from the spec: `normalize_numeric_dtypes` (`crate::dataframe`,
not under `src/`) — normalize every column of the dataframe. -/
def normalize_numeric_dtypes (df : DataFrame) : DataFrame :=
  df.map Series.normalize

/-- `finish_reader` (io.rs lines 27-36): run the reader to completion, then
normalize the numeric dtypes of the resulting dataframe once. The already-run
reader is represented by its outcome. -/
def finish_reader (reader : Except ExplorerError DataFrame) :
    Except ExplorerError DataFrame :=
  match reader with
  | .error e => .error e
  | .ok df => .ok (normalize_numeric_dtypes df)

/-- An `ExDataFrame` resource handle passed across the NIF boundary. -/
abbrev Handle := Nat

/-- The table of dataframes the host runtime shares with the NIFs; a handle
indexes into it. -/
abbrev Store := Handle → DataFrame

/-- `data.clone()`: materialize a private copy of the dataframe behind a
handle. -/
def cloneFrame (st : Store) (h : Handle) : DataFrame := st h

/-- A polars writer `finish` call takes `&mut DataFrame`: modelled as a
function returning the write outcome together with the dataframe as it stands
after the call (possibly mutated). -/
def Finisher := DataFrame → Except ExplorerError (List Nat) × DataFrame

/-- `df_to_csv` (io.rs lines 106-120), in store-passing style. The CSV writer
(`csv_finish`, a library call) receives `data.clone()`; whatever it does to
that copy, the copy is dropped at the end of the call and the store is handed
back. The file sink is immaterial to the dataframe, so the written bytes are
returned alongside. -/
def df_to_csv (csv_finish : Bool → Nat → Finisher) (st : Store)
    (data : Handle) (has_headers : Bool) (delimiter : Nat) :
    Store × Except ExplorerError (List Nat) :=
  let cloned := cloneFrame st data
  let (res, _mutated) := csv_finish has_headers delimiter cloned
  (st, res)

/-- Polars `ParquetCompression`. -/
inductive ParquetCompression where
  | Uncompressed
  | Snappy
  | Gzip (level : Option Nat)
  | Brotli (level : Option Nat)
  | Lzo
  | Zstd (level : Option Int)
  | Lz4Raw
deriving DecidableEq

/-- `df_dump_parquet` (io.rs lines 296-314), in store-passing style. The
`ExParquetCompression → ParquetCompression` conversion (`try_from`) lives in
`datatypes.rs`, outside `src/`, so it is taken as a parameter over an
arbitrary input type. The parquet writer receives `data.clone()`. -/
def df_dump_parquet {γ : Type} (try_from : γ → Except ExplorerError ParquetCompression)
    (parquet_finish : ParquetCompression → Finisher) (st : Store)
    (data : Handle) (ex_compression : γ) :
    Store × Except ExplorerError (List Nat) :=
  match try_from ex_compression with
  | .error e => (st, .error e)
  | .ok compression =>
    let cloned := cloneFrame st data
    let (res, _mutated) := parquet_finish compression cloned
    (st, res)

/-- The ten read/load entry points of the five formats. -/
inductive ReadEntry where
  | df_from_csv
  | df_load_csv
  | df_from_parquet
  | df_load_parquet
  | df_from_ipc
  | df_load_ipc
  | df_from_ipc_stream
  | df_load_ipc_stream
  | df_from_ndjson
  | df_load_ndjson
deriving DecidableEq

/-- The read-side options an entry point can carry (beyond its data source). -/
inductive ReadOpt where
  | inferSchemaLength
  | hasHeader
  | rowCap
  | skipRows
  | projection
  | delimiter
  | rechunk
  | columnNames
  | dtypes
  | encoding
  | nullValues
  | parseDates
  | eolDelimiter
  | batchSize
deriving DecidableEq

/-- The option surface of each read/load entry point, transcribed from its
parameter list in io.rs (`stop_after_n_rows`/`with_n_rows` is the row cap,
`column_names`/`columns` the name list, `projection` the positional list). -/
def readOptions : ReadEntry → List ReadOpt
  | .df_from_csv | .df_load_csv =>
    [.inferSchemaLength, .hasHeader, .rowCap, .skipRows, .projection,
     .delimiter, .rechunk, .columnNames, .dtypes, .encoding, .nullValues,
     .parseDates, .eolDelimiter]
  | .df_from_parquet => [.rowCap, .columnNames, .projection]
  | .df_load_parquet => []
  | .df_from_ipc | .df_load_ipc | .df_from_ipc_stream | .df_load_ipc_stream =>
    [.columnNames, .projection]
  | .df_from_ndjson | .df_load_ndjson => [.inferSchemaLength, .batchSize]

/-- A build configuration: which optional cargo features are compiled in. -/
structure BuildConfig where
  ndjson : Bool
  aws : Bool
deriving DecidableEq

/-- The feature-gated NIFs of io.rs (the ones that have a `#[cfg(...)]` real
implementation and a stub). -/
inductive GatedNif where
  | df_from_ndjson
  | df_to_ndjson
  | df_dump_ndjson
  | df_load_ndjson
  | df_to_ndjson_cloud
  | df_to_parquet_cloud
  | df_to_csv_cloud
  | df_to_ipc_cloud
  | df_to_ipc_stream_cloud
deriving DecidableEq

/-- The `#[cfg(...)]` guard of each real (functional) implementation. -/
def realImplCfg : GatedNif → BuildConfig → Bool
  | .df_from_ndjson, c | .df_to_ndjson, c | .df_dump_ndjson, c
  | .df_load_ndjson, c => c.ndjson
  | .df_to_ndjson_cloud, c => c.ndjson && c.aws
  | .df_to_parquet_cloud, c | .df_to_csv_cloud, c | .df_to_ipc_cloud, c
  | .df_to_ipc_stream_cloud, c => c.aws

/-- The `#[cfg(...)]` guard of each capability-disabled stub (io.rs lines
602-717); note the stub of `df_to_ndjson_cloud` is guarded by
`not(any(ndjson, aws))`. -/
def stubCfg : GatedNif → BuildConfig → Bool
  | .df_from_ndjson, c | .df_to_ndjson, c | .df_dump_ndjson, c
  | .df_load_ndjson, c => !c.ndjson
  | .df_to_ndjson_cloud, c => !(c.ndjson || c.aws)
  | .df_to_parquet_cloud, c | .df_to_csv_cloud, c | .df_to_ipc_cloud, c
  | .df_to_ipc_stream_cloud, c => !c.aws

/-- Whether a gated NIF exists at all (either as real implementation or as
stub) in a given build. -/
def nifDefined (n : GatedNif) (c : BuildConfig) : Bool :=
  realImplCfg n c || stubCfg n c

/-- The error every ndjson stub returns (io.rs lines 604-650): the same
`ExplorerError::Other` value for all four operation forms. -/
def ndjson_disabled_error : ExplorerError :=
  .Other ("Explorer was compiled without the \"ndjson\" feature enabled. " ++
    "This is mostly due to this feature being incompatible with your computer's architecture. " ++
    "Please read the section about precompilation in our README.md: https://github.com/elixir-explorer/explorer#precompilation")

/-- The `df_from_ndjson` stub (io.rs lines 604-616). -/
def df_from_ndjson_stub (_filename : String) (_infer_schema_length : Option Nat)
    (_batch_size : Nat) : Except ExplorerError DataFrame :=
  .error ndjson_disabled_error

/-- The `df_to_ndjson` stub (io.rs lines 618-626). -/
def df_to_ndjson_stub (_data : Handle) (_filename : String) :
    Except ExplorerError Unit :=
  .error ndjson_disabled_error

/-- The `df_dump_ndjson` stub (io.rs lines 628-636). -/
def df_dump_ndjson_stub (_data : Handle) : Except ExplorerError (List Nat) :=
  .error ndjson_disabled_error

/-- The `df_load_ndjson` stub (io.rs lines 638-650). -/
def df_load_ndjson_stub (_binary : List Nat) (_infer_schema_length : Option Nat)
    (_batch_size : Nat) : Except ExplorerError DataFrame :=
  .error ndjson_disabled_error

/-- The cloud target config (`ExS3Config`, from `datatypes.rs`): endpoint,
region, credentials, optional session token, optional bucket name. -/
structure ExS3Config where
  endpoint : String
  region : String
  access_key_id : String
  secret_access_key : String
  token : Option String
  bucket : Option String
deriving DecidableEq

/-- A cloud target (`ExS3Entry`): config plus object key. -/
structure ExS3Entry where
  config : ExS3Config
  key : String
deriving DecidableEq

/-- The configuration record accumulated by the external
`object_store::aws::AmazonS3Builder`; each `with_*` call sets one field. -/
structure AmazonS3Builder where
  region : String := ""
  access_key_id : String := ""
  secret_access_key : String := ""
  allow_http : Bool := false
  endpoint : String := ""
  bucket_name : Option String := none
  virtual_hosted_style_request : Bool := false
  token : Option String := none
deriving DecidableEq

def AmazonS3Builder.with_region (b : AmazonS3Builder) (r : String) :
    AmazonS3Builder := { b with region := r }

def AmazonS3Builder.with_access_key_id (b : AmazonS3Builder) (k : String) :
    AmazonS3Builder := { b with access_key_id := k }

def AmazonS3Builder.with_secret_access_key (b : AmazonS3Builder) (k : String) :
    AmazonS3Builder := { b with secret_access_key := k }

def AmazonS3Builder.with_allow_http (b : AmazonS3Builder) (v : Bool) :
    AmazonS3Builder := { b with allow_http := v }

def AmazonS3Builder.with_endpoint (b : AmazonS3Builder) (e : String) :
    AmazonS3Builder := { b with endpoint := e }

def AmazonS3Builder.with_bucket_name (b : AmazonS3Builder) (n : String) :
    AmazonS3Builder := { b with bucket_name := some n }

def AmazonS3Builder.with_virtual_hosted_style_request (b : AmazonS3Builder)
    (v : Bool) : AmazonS3Builder := { b with virtual_hosted_style_request := v }

def AmazonS3Builder.with_token (b : AmazonS3Builder) (t : String) :
    AmazonS3Builder := { b with token := some t }

/-- A built `AmazonS3` store configuration. -/
structure AmazonS3 where
  region : String
  access_key_id : String
  secret_access_key : String
  allow_http : Bool
  endpoint : String
  bucket : String
  virtual_hosted_style_request : Bool
  token : Option String
deriving DecidableEq

/-- The external library's `AmazonS3Builder::build`: per its contract it
requires a bucket name to have been configured and fails otherwise. -/
def AmazonS3Builder.build (b : AmazonS3Builder) : Except String AmazonS3 :=
  match b.bucket_name with
  | none => .error "Generic S3 error: Bucket must be specified"
  | some bucket =>
    .ok
      { region := b.region
        access_key_id := b.access_key_id
        secret_access_key := b.secret_access_key
        allow_http := b.allow_http
        endpoint := b.endpoint
        bucket := bucket
        virtual_hosted_style_request := b.virtual_hosted_style_request
        token := b.token }

/-- `object_store_to_explorer_error` (io.rs lines 255-257). -/
def object_store_to_explorer_error (error : String) : ExplorerError :=
  .Other ("Internal ObjectStore error: #" ++ error)

/-- A `CloudWriter` handle (`crate::cloud_writer::CloudWriter::new`): the
configured object store plus the object key it will write to. -/
structure CloudWriter where
  object_store : AmazonS3
  key : String
deriving DecidableEq

/-- `build_aws_s3_cloud_writer` (io.rs lines 259-294): configure the S3
builder from the entry's config; when the config has no bucket, substitute
the fixed placeholder bucket name and switch to virtual-hosted-style
addressing instead. -/
def build_aws_s3_cloud_writer (ex_entry : ExS3Entry) :
    Except ExplorerError CloudWriter :=
  let config := ex_entry.config
  let aws_builder :=
    ((((({} : AmazonS3Builder).with_region config.region).with_access_key_id
      config.access_key_id).with_secret_access_key
      config.secret_access_key).with_allow_http true).with_endpoint
      config.endpoint
  let aws_builder :=
    match config.bucket with
    | some bucket_name => aws_builder.with_bucket_name bucket_name
    | none =>
      (aws_builder.with_bucket_name
        "explorer-default-bucket-name").with_virtual_hosted_style_request true
  let aws_builder :=
    match config.token with
    | some token => aws_builder.with_token token
    | none => aws_builder
  match aws_builder.build with
  | .error e => .error (object_store_to_explorer_error e)
  | .ok aws_s3 => .ok { object_store := aws_s3, key := ex_entry.key }

/-- First binding of a name in a schema (association-list lookup). -/
def lookupName : Schema → String → Option DataType
  | [], _ => none
  | (k, v) :: rest, n => if k = n then some v else lookupName rest n

/-- The type-name string of the *last* pair carrying a given column name. -/
def lastTypeStr : List (String × String) → String → Option String
  | [], _ => none
  | (m, ds) :: rest, n =>
    match lastTypeStr rest n with
    | some r => some r
    | none => if m = n then some ds else none

/-- The names of a list in order of first occurrence, each listed once,
skipping names already seen. -/
def firstOccAux : List String → List String → List String
  | _, [] => []
  | seen, n :: rest =>
    if n ∈ seen then firstOccAux seen rest
    else n :: firstOccAux (n :: seen) rest

/-- The names of a list in order of first occurrence, each listed once. -/
def firstOccurrences (names : List String) : List String :=
  firstOccAux [] names

section SchemaLemmas

theorem with_column_keys (s : Schema) (n : String) (d : DataType) :
    (Schema.with_column s n d).map Prod.fst =
      if n ∈ s.map Prod.fst then s.map Prod.fst
      else s.map Prod.fst ++ [n] := by
  induction s with
  | nil => simp [Schema.with_column]
  | cons p rest ih =>
    obtain ⟨k, v⟩ := p
    by_cases hk : k = n
    · subst hk
      simp [Schema.with_column]
    · have hnk : ¬ n = k := fun he => hk he.symm
      simp only [Schema.with_column, if_neg hk, List.map_cons, ih]
      by_cases hm : n ∈ rest.map Prod.fst
      · simp [hm, hnk]
      · simp [hm, hnk]

theorem lookupName_with_column (s : Schema) (n m : String) (d : DataType) :
    lookupName (Schema.with_column s m d) n =
      if m = n then some d else lookupName s n := by
  induction s with
  | nil => simp [Schema.with_column, lookupName]
  | cons p rest ih =>
    obtain ⟨k, v⟩ := p
    by_cases hk : k = m
    · subst hk
      simp only [Schema.with_column, if_pos rfl, lookupName]
      by_cases hn : k = n <;> simp [hn]
    · simp only [Schema.with_column, if_neg hk, lookupName]
      by_cases hn : k = n
      · have hmn : ¬ m = n := fun he => hk (hn.trans he.symm)
        simp [hn, hmn]
      · simp [hn, ih]

theorem firstOccAux_congr (s₁ s₂ t : List String)
    (h : ∀ x, x ∈ s₁ ↔ x ∈ s₂) : firstOccAux s₁ t = firstOccAux s₂ t := by
  induction t generalizing s₁ s₂ with
  | nil => rfl
  | cons n rest ih =>
    by_cases hn : n ∈ s₁
    · rw [firstOccAux, firstOccAux, if_pos hn, if_pos ((h n).mp hn), ih s₁ s₂ h]
    · rw [firstOccAux, firstOccAux, if_neg hn, if_neg (fun hx => hn ((h n).mpr hx))]
      exact congrArg (n :: ·) (ih (n :: s₁) (n :: s₂) (by
        intro x
        simp only [List.mem_cons]
        exact or_congr Iff.rfl (h x)))

theorem mem_of_mem_firstOccAux {seen t : List String} {x : String}
    (h : x ∈ firstOccAux seen t) : x ∈ t ∧ x ∉ seen := by
  induction t generalizing seen with
  | nil => simp [firstOccAux] at h
  | cons n rest ih =>
    by_cases hn : n ∈ seen
    · rw [firstOccAux, if_pos hn] at h
      obtain ⟨h1, h2⟩ := ih h
      exact ⟨List.mem_cons_of_mem _ h1, h2⟩
    · rw [firstOccAux, if_neg hn] at h
      rcases List.mem_cons.mp h with hx | hx
      · subst hx
        exact ⟨List.mem_cons_self _ _, hn⟩
      · obtain ⟨h1, h2⟩ := ih hx
        refine ⟨List.mem_cons_of_mem _ h1, fun hc => h2 ?_⟩
        exact List.mem_cons_of_mem _ hc

theorem firstOccAux_nodup (seen t : List String) :
    (firstOccAux seen t).Nodup := by
  induction t generalizing seen with
  | nil => simp [firstOccAux]
  | cons n rest ih =>
    by_cases hn : n ∈ seen
    · rw [firstOccAux, if_pos hn]
      exact ih seen
    · rw [firstOccAux, if_neg hn]
      refine List.nodup_cons.mpr ⟨fun hc => ?_, ih (n :: seen)⟩
      exact (mem_of_mem_firstOccAux hc).2 (List.mem_cons_self _ _)

theorem schemaLoop_keys (l : List (String × String)) (sch s : Schema)
    (h : schemaLoop sch l = .ok s) :
    s.map Prod.fst =
      sch.map Prod.fst ++ firstOccAux (sch.map Prod.fst) (l.map Prod.fst) := by
  induction l generalizing sch with
  | nil =>
    simp only [schemaLoop, Except.ok.injEq] at h
    subst h
    simp [firstOccAux]
  | cons p rest ih =>
    obtain ⟨m, ds⟩ := p
    simp only [schemaLoop] at h
    cases hd : dtype_from_str ds with
    | error e => rw [hd] at h; exact absurd h (by simp)
    | ok d =>
      rw [hd] at h
      have key := ih (Schema.with_column sch m d) h
      rw [with_column_keys sch m d] at key
      by_cases hm : m ∈ sch.map Prod.fst
      · rw [if_pos hm] at key
        rw [key, List.map_cons, firstOccAux, if_pos hm]
      · rw [if_neg hm] at key
        rw [key, List.map_cons, firstOccAux, if_neg hm,
          firstOccAux_congr (sch.map Prod.fst ++ [m]) (m :: sch.map Prod.fst)
            (rest.map Prod.fst) (by intro x; simp [or_comm]),
          List.append_assoc, List.singleton_append]

theorem schemaLoop_lookupName (l : List (String × String)) (sch s : Schema)
    (h : schemaLoop sch l = .ok s) (n : String) :
    lookupName s n =
      match lastTypeStr l n with
      | some ds => (dtype_from_str ds).toOption
      | none => lookupName sch n := by
  induction l generalizing sch with
  | nil =>
    simp only [schemaLoop, Except.ok.injEq] at h
    subst h
    simp [lastTypeStr]
  | cons p rest ih =>
    obtain ⟨m, ds⟩ := p
    simp only [schemaLoop] at h
    cases hd : dtype_from_str ds with
    | error e => rw [hd] at h; exact absurd h (by simp)
    | ok d =>
      rw [hd] at h
      have key := ih (Schema.with_column sch m d) h
      simp only [lastTypeStr]
      cases hrest : lastTypeStr rest n with
      | some r =>
        rw [hrest] at key
        exact key
      | none =>
        rw [hrest] at key
        rw [key, lookupName_with_column]
        by_cases hm : m = n
        · simp [hm, hd, Except.toOption]
        · simp [hm]

theorem lookupName_eq_some_of_mem (s : Schema)
    (hnd : (s.map Prod.fst).Nodup) (n : String) (d : DataType)
    (hm : (n, d) ∈ s) : lookupName s n = some d := by
  induction s with
  | nil => simp at hm
  | cons p rest ih =>
    obtain ⟨k, v⟩ := p
    rw [List.map_cons, List.nodup_cons] at hnd
    rcases List.mem_cons.mp hm with hx | hx
    · simp only [lookupName, if_pos (congrArg Prod.fst hx.symm)]
      exact congrArg some (congrArg Prod.snd hx.symm)
    · have hk : ¬ k = n := by
        intro he
        subst he
        exact hnd.1 (List.mem_map.mpr ⟨(k, d), hx, rfl⟩)
      simp only [lookupName, if_neg hk]
      exact ih hnd.2 hx

end SchemaLemmas

section NormalizeLemmas

theorem normalizeDType_canonical (d : DataType)
    (h : (normalizeDType d).isNumeric = true) :
    normalizeDType d = DataType.Int64 ∨ normalizeDType d = DataType.Float64 := by
  cases d <;> simp [normalizeDType, DataType.isNumeric] at h ⊢

theorem normalizeDType_id_of_not_numeric (d : DataType)
    (h : d.isNumeric = false) : normalizeDType d = d := by
  cases d <;> simp [normalizeDType, DataType.isNumeric] at h ⊢

end NormalizeLemmas

/-- C1: the claim says every entry point of a capability that is not built in
still exists and returns the capability-disabled error; evaluating the cfg
guards shows that in a build with exactly one of the "ndjson"/"aws" features
enabled, `df_to_ndjson_cloud` is not functional yet neither its real
implementation (which needs both features) nor its stub (which needs both
absent) is compiled — the entry point does not exist at all — while the four
ndjson operation forms do return one identical capability-disabled error
where their stubs exist. -/
theorem df_to_ndjson_cloud_missing_in_mixed_builds :
    nifDefined GatedNif.df_to_ndjson_cloud ⟨true, false⟩ = false ∧
    nifDefined GatedNif.df_to_ndjson_cloud ⟨false, true⟩ = false ∧
    realImplCfg GatedNif.df_to_ndjson_cloud ⟨true, false⟩ = false ∧
    realImplCfg GatedNif.df_to_ndjson_cloud ⟨false, true⟩ = false ∧
    df_from_ndjson_stub "f" none 0 = .error ndjson_disabled_error ∧
    df_to_ndjson_stub 0 "f" = .error ndjson_disabled_error ∧
    df_dump_ndjson_stub 0 = .error ndjson_disabled_error ∧
    df_load_ndjson_stub [] none 0 = .error ndjson_disabled_error :=
  ⟨rfl, rfl, rfl, rfl, rfl, rfl, rfl, rfl⟩

/-- C2 counterexample: resolving `[("x", "frobnicate")]` fails, but with the
fixed message `"Unrecognised datatype"`, whose text does not contain the
literal offending string `"frobnicate"`. -/
theorem schema_resolution_frobnicate_message :
    schema_from_dtypes_pairs [("x", "frobnicate")] =
      .error (.Internal "Unrecognised datatype") ∧
    ¬ strContains "Unrecognised datatype" "frobnicate" :=
  ⟨rfl, by decide⟩

/-- C2 (amended): resolving a pair whose type-name string is not one of the
ten recognized names fails with the fixed error
`Internal "Unrecognised datatype"`, a message independent of (and in general
not containing) the offending string. -/
theorem schema_from_dtypes_pairs_unknown_dtype (name s : String)
    (h : s ∉ ["binary", "bool", "cat", "date", "datetime[ms]", "datetime[ns]",
      "datetime[μs]", "f64", "i64", "str"]) :
    schema_from_dtypes_pairs [(name, s)] =
      .error (.Internal "Unrecognised datatype") := by
  simp only [List.mem_cons, List.not_mem_nil, or_false, not_or] at h
  obtain ⟨h1, h2, h3, h4, h5, h6, h7, h8, h9, h10⟩ := h
  simp [schema_from_dtypes_pairs, schemaLoop, dtype_from_str,
    h1, h2, h3, h4, h5, h6, h7, h8, h9, h10]

/-- C2 witness: the amended theorem applied at the claim's own example. -/
theorem schema_from_dtypes_pairs_unknown_dtype_witness :
    schema_from_dtypes_pairs [("x", "frobnicate")] =
      .error (.Internal "Unrecognised datatype") :=
  schema_from_dtypes_pairs_unknown_dtype "x" "frobnicate" (by decide)

/-- C3: every successful `finish_reader` outcome is the numeric normalization
of the dataframe the reader produced, applied exactly once: cells (hence null
positions and row order) are untouched, every numeric column of the result
has dtype Int64 or Float64, and non-numeric columns are left unchanged. -/
theorem finish_reader_normalizes (reader : Except ExplorerError DataFrame)
    (df' : DataFrame) (h : finish_reader reader = .ok df') :
    ∃ df, reader = .ok df ∧ df' = normalize_numeric_dtypes df ∧
      (∀ i : Nat, df'[i]? = (df[i]?).map Series.normalize) ∧
      (∀ s ∈ df', s.dtype.isNumeric = true →
        s.dtype = DataType.Int64 ∨ s.dtype = DataType.Float64) ∧
      (∀ s : Series, (Series.normalize s).name = s.name ∧
        (Series.normalize s).values = s.values) ∧
      (∀ s : Series, s.dtype.isNumeric = false → Series.normalize s = s) := by
  cases hr : reader with
  | error e =>
    rw [hr] at h
    simp only [finish_reader] at h
    exact absurd h (by simp)
  | ok df =>
    rw [hr] at h
    simp only [finish_reader] at h
    refine ⟨df, rfl, ?_, ?_, ?_, ?_, ?_⟩
    · exact (Except.ok.injEq _ _ ▸ h).symm
    · intro i
      have hdf : df' = df.map Series.normalize := by
        have := h
        simp only [Except.ok.injEq] at this
        exact this.symm
      rw [hdf]
      simp
    · intro s hs hnum
      have hdf : df' = df.map Series.normalize := by
        have := h
        simp only [Except.ok.injEq] at this
        exact this.symm
      rw [hdf] at hs
      rcases List.mem_map.mp hs with ⟨t, _, rfl⟩
      exact normalizeDType_canonical t.dtype hnum
    · intro s
      exact ⟨rfl, rfl⟩
    · intro s hs
      cases s with
      | mk n d v =>
        simp only [Series.normalize]
        rw [normalizeDType_id_of_not_numeric d hs]

/-- C3 witness: a one-column Int8 dataframe is normalized to Int64 with its
cells untouched. -/
theorem finish_reader_normalizes_witness :
    ∃ df, (Except.ok [⟨"a", DataType.Int8, [some (Val.vint 3), none]⟩] :
        Except ExplorerError DataFrame) = .ok df ∧
      ([⟨"a", DataType.Int64, [some (Val.vint 3), none]⟩] : DataFrame) =
        normalize_numeric_dtypes df ∧
      (∀ i : Nat, ([⟨"a", DataType.Int64, [some (Val.vint 3), none]⟩] :
        DataFrame)[i]? = (df[i]?).map Series.normalize) ∧
      (∀ s ∈ ([⟨"a", DataType.Int64, [some (Val.vint 3), none]⟩] : DataFrame),
        s.dtype.isNumeric = true →
        s.dtype = DataType.Int64 ∨ s.dtype = DataType.Float64) ∧
      (∀ s : Series, (Series.normalize s).name = s.name ∧
        (Series.normalize s).values = s.values) ∧
      (∀ s : Series, s.dtype.isNumeric = false → Series.normalize s = s) :=
  finish_reader_normalizes
    (.ok [⟨"a", DataType.Int8, [some (Val.vint 3), none]⟩])
    [⟨"a", DataType.Int64, [some (Val.vint 3), none]⟩] rfl

/-- C4: neither `df_to_csv` nor `df_dump_parquet` mutates the store of
dataframes the caller's handle points into, whatever the (library) writer
does to the clone it is given: the store handed back is the store passed
in. -/
theorem write_operations_do_not_mutate (csv_finish : Bool → Nat → Finisher)
    {γ : Type} (try_from : γ → Except ExplorerError ParquetCompression)
    (parquet_finish : ParquetCompression → Finisher) (st : Store)
    (data : Handle) (has_headers : Bool) (delimiter : Nat)
    (ex_compression : γ) :
    (df_to_csv csv_finish st data has_headers delimiter).1 = st ∧
    (df_dump_parquet try_from parquet_finish st data ex_compression).1 = st := by
  constructor
  · rfl
  · unfold df_dump_parquet
    cases try_from ex_compression <;> rfl

/-- C5: a compression-name string outside a variant's accepted set
{"lz4", "zstd"} is rejected by that variant's decoder with an
unsupported-option error whose message contains the offending algorithm name;
the surrounding `Option` plumbing propagates the error and never falls back
to `ok none` ("no compression"). -/
theorem ipc_compression_unknown_rejected (s : String)
    (h1 : s ≠ "lz4") (h2 : s ≠ "zstd") :
    (decode_ipc_compression s = .error (.Other ("the algorithm " ++ s ++
        " is not supported for IPC compression")) ∧
      strContains ("the algorithm " ++ s ++
        " is not supported for IPC compression") s) ∧
    (decode_ipc_stream_compression s = .error (.Other ("the algorithm " ++ s ++
        " is not supported for IPC stream compression")) ∧
      strContains ("the algorithm " ++ s ++
        " is not supported for IPC stream compression") s) ∧
    decode_ipc_compression_option (some s) ≠ .ok none ∧
    decode_ipc_stream_compression_option (some s) ≠ .ok none := by
  have e1 : decode_ipc_compression s = .error (.Other ("the algorithm " ++ s ++
      " is not supported for IPC compression")) := by
    simp [decode_ipc_compression, h1, h2]
  have e2 : decode_ipc_stream_compression s = .error (.Other
      ("the algorithm " ++ s ++
        " is not supported for IPC stream compression")) := by
    simp [decode_ipc_stream_compression, h1, h2]
  refine ⟨⟨e1, strContains_middle _ s _⟩, ⟨e2, strContains_middle _ s _⟩, ?_, ?_⟩
  · simp [decode_ipc_compression_option, e1]
  · simp [decode_ipc_stream_compression_option, e2]

/-- C5 witness: the unrecognized name "snappy" against both variants. -/
theorem ipc_compression_unknown_rejected_witness :
    (decode_ipc_compression "snappy" = .error (.Other ("the algorithm " ++
        "snappy" ++ " is not supported for IPC compression")) ∧
      strContains ("the algorithm " ++ "snappy" ++
        " is not supported for IPC compression") "snappy") ∧
    (decode_ipc_stream_compression "snappy" = .error (.Other
        ("the algorithm " ++ "snappy" ++
          " is not supported for IPC stream compression")) ∧
      strContains ("the algorithm " ++ "snappy" ++
        " is not supported for IPC stream compression") "snappy") ∧
    decode_ipc_compression_option (some "snappy") ≠ .ok none ∧
    decode_ipc_stream_compression_option (some "snappy") ≠ .ok none :=
  ipc_compression_unknown_rejected "snappy" (by decide) (by decide)

/-- C6: a schema successfully resolved from (name, type-name) pairs lists the
distinct names in order of first occurrence, and the dtype bound to each name
is the decoding of the type-name string of the *last* pair carrying that name
(last-write-wins, ordered-map semantics). -/
theorem schema_from_dtypes_pairs_ordered_map (l : List (String × String))
    (s : Schema) (h : schema_from_dtypes_pairs l = .ok s) :
    s.map Prod.fst = firstOccurrences (l.map Prod.fst) ∧
    ∀ n d, (n, d) ∈ s →
      ∃ ds, lastTypeStr l n = some ds ∧ dtype_from_str ds = .ok d := by
  have hkeys := schemaLoop_keys l [] s h
  simp only [List.map_nil, List.nil_append] at hkeys
  refine ⟨hkeys, ?_⟩
  intro n d hm
  have hnd : (s.map Prod.fst).Nodup := by
    rw [hkeys]
    exact firstOccAux_nodup [] _
  have hlk := lookupName_eq_some_of_mem s hnd n d hm
  have hl := schemaLoop_lookupName l [] s h n
  rw [hlk] at hl
  cases hls : lastTypeStr l n with
  | none =>
    rw [hls] at hl
    simp [lookupName] at hl
  | some ds =>
    rw [hls] at hl
    have hl2 : some d = (dtype_from_str ds).toOption := hl
    refine ⟨ds, rfl, ?_⟩
    cases hd : dtype_from_str ds with
    | error e =>
      rw [hd] at hl2
      simp [Except.toOption] at hl2
    | ok d2 =>
      rw [hd] at hl2
      simp only [Except.toOption, Option.some.injEq] at hl2
      exact congrArg Except.ok hl2.symm

/-- C6 witness: `[("a","i64"),("b","f64"),("a","str")]` resolves to a schema
with "a" at the first position carrying the type of the last "a" entry. -/
theorem schema_from_dtypes_pairs_ordered_map_witness :
    ([("a", DataType.Utf8), ("b", DataType.Float64)] : Schema).map Prod.fst =
      firstOccurrences ([("a", "i64"), ("b", "f64"), ("a", "str")].map Prod.fst) ∧
    ∀ n d, (n, d) ∈ ([("a", DataType.Utf8), ("b", DataType.Float64)] : Schema) →
      ∃ ds, lastTypeStr [("a", "i64"), ("b", "f64"), ("a", "str")] n = some ds ∧
        dtype_from_str ds = .ok d :=
  schema_from_dtypes_pairs_ordered_map [("a", "i64"), ("b", "f64"), ("a", "str")]
    [("a", DataType.Utf8), ("b", DataType.Float64)] rfl

/-- C7 counterexample: the claim says every read/load operation — in
particular loading Parquet or NDJSON from in-memory bytes — accepts a row
cap, a column-name list and a positional index list; but `df_load_parquet`
accepts no options at all, the exchange-format reads accept no row cap, and
the NDJSON reads accept neither a row cap nor any column projection. -/
theorem df_load_parquet_accepts_no_options :
    readOptions ReadEntry.df_load_parquet = [] ∧
    ReadOpt.rowCap ∉ readOptions ReadEntry.df_from_ipc ∧
    ReadOpt.rowCap ∉ readOptions ReadEntry.df_load_ndjson ∧
    ReadOpt.columnNames ∉ readOptions ReadEntry.df_load_ndjson ∧
    ReadOpt.projection ∉ readOptions ReadEntry.df_load_ndjson := by
  refine ⟨rfl, ?_, ?_, ?_, ?_⟩ <;> decide

/-- C7 (amended): the actual per-entry-point option surface: the delimited
text reads take row cap, both projections and the full CSV option set; the
parquet file read takes row cap and both projections; the parquet load from
bytes takes none; the exchange-format and streaming reads/loads take both
projections but no row cap; the NDJSON reads take only schema-inference
sample size and batch size. -/
theorem read_load_option_surface :
    readOptions ReadEntry.df_from_csv =
      [.inferSchemaLength, .hasHeader, .rowCap, .skipRows, .projection,
       .delimiter, .rechunk, .columnNames, .dtypes, .encoding, .nullValues,
       .parseDates, .eolDelimiter] ∧
    readOptions ReadEntry.df_load_csv =
      [.inferSchemaLength, .hasHeader, .rowCap, .skipRows, .projection,
       .delimiter, .rechunk, .columnNames, .dtypes, .encoding, .nullValues,
       .parseDates, .eolDelimiter] ∧
    readOptions ReadEntry.df_from_parquet = [.rowCap, .columnNames, .projection] ∧
    readOptions ReadEntry.df_load_parquet = [] ∧
    readOptions ReadEntry.df_from_ipc = [.columnNames, .projection] ∧
    readOptions ReadEntry.df_load_ipc = [.columnNames, .projection] ∧
    readOptions ReadEntry.df_from_ipc_stream = [.columnNames, .projection] ∧
    readOptions ReadEntry.df_load_ipc_stream = [.columnNames, .projection] ∧
    readOptions ReadEntry.df_from_ndjson = [.inferSchemaLength, .batchSize] ∧
    readOptions ReadEntry.df_load_ndjson = [.inferSchemaLength, .batchSize] :=
  ⟨rfl, rfl, rfl, rfl, rfl, rfl, rfl, rfl, rfl, rfl⟩

/-- C8 counterexample: the unrecognized encoding string "latin1" is not
rejected: the CSV reader options are built successfully with the encoding
silently treated as strict UTF-8. -/
theorem csv_encoding_latin1_not_rejected :
    csv_encoding_from_str "latin1" = CsvEncoding.Utf8 ∧
    df_from_csv_options none true none 0 none 44 true none [] "latin1" []
        false none =
      .ok { infer_schema_length := none, has_header := true,
            try_parse_dates := false, n_rows := none, delimiter := 44,
            skip_rows := 0, projection := none, rechunk := true,
            encoding := CsvEncoding.Utf8, columns := none,
            dtypes := some [], null_values := some (.AllColumns []),
            end_of_line_char := 10 } :=
  ⟨rfl, rfl⟩

/-- C8 (amended): the delimited-text encoding option recognizes exactly
"utf8-lossy" as lossy UTF-8; every other string — recognized or not — is
silently treated as strict UTF-8, and no error is ever raised for it. -/
theorem csv_encoding_silently_coerced (s : String) (h : s ≠ "utf8-lossy") :
    csv_encoding_from_str s = CsvEncoding.Utf8 ∧
    csv_encoding_from_str "utf8-lossy" = CsvEncoding.LossyUtf8 :=
  ⟨by simp [csv_encoding_from_str, h], rfl⟩

/-- C8 witness: the amended theorem at "latin1". -/
theorem csv_encoding_silently_coerced_witness :
    csv_encoding_from_str "latin1" = CsvEncoding.Utf8 ∧
    csv_encoding_from_str "utf8-lossy" = CsvEncoding.LossyUtf8 :=
  csv_encoding_silently_coerced "latin1" (by decide)

/-- C9 counterexample: no argument assignment to the CSV reader configuration
can make the null-token set differ between two columns — per-column
null-token configuration is not expressible through `df_from_csv`. -/
theorem csv_null_tokens_not_per_column :
    ¬ ∃ (isl : Option Nat) (hh : Bool) (nr : Option Nat) (sk : Nat)
        (proj : Option (List Nat)) (delim : Nat) (rc : Bool)
        (cols : Option (List String)) (dts : List (String × String))
        (enc : String) (nulls : List String) (pd : Bool) (eol : Option Nat)
        (opts : CsvReaderOptions) (nv : NullValues) (c₁ c₂ : String),
      df_from_csv_options isl hh nr sk proj delim rc cols dts enc nulls pd
          eol = .ok opts ∧
      opts.null_values = some nv ∧
      nullTokensFor nv c₁ ≠ nullTokensFor nv c₂ := by
  rintro ⟨isl, hh, nr, sk, proj, delim, rc, cols, dts, enc, nulls, pd, eol,
    opts, nv, c₁, c₂, hok, hnv, hne⟩
  rw [df_from_csv_options] at hok
  cases hs : schema_from_dtypes_pairs dts with
  | error e =>
    rw [hs] at hok
    exact absurd hok (by simp)
  | ok sch =>
    rw [hs] at hok
    simp only [Except.ok.injEq] at hok
    rw [← hok] at hnv
    simp only [Option.some.injEq] at hnv
    rw [← hnv] at hne
    exact hne rfl

/-- C9 (amended): the null-token list handed to `df_from_csv` is installed as
`NullValues::AllColumns`, one list applied uniformly to every column of the
input. -/
theorem csv_null_tokens_apply_to_all_columns (isl : Option Nat) (hh : Bool)
    (nr : Option Nat) (sk : Nat) (proj : Option (List Nat)) (delim : Nat)
    (rc : Bool) (cols : Option (List String)) (dts : List (String × String))
    (enc : String) (nulls : List String) (pd : Bool) (eol : Option Nat)
    (opts : CsvReaderOptions)
    (h : df_from_csv_options isl hh nr sk proj delim rc cols dts enc nulls pd
        eol = .ok opts) :
    opts.null_values = some (NullValues.AllColumns nulls) ∧
    ∀ c₁ c₂, nullTokensFor (NullValues.AllColumns nulls) c₁ =
      nullTokensFor (NullValues.AllColumns nulls) c₂ := by
  rw [df_from_csv_options] at h
  cases hs : schema_from_dtypes_pairs dts with
  | error e =>
    rw [hs] at h
    exact absurd h (by simp)
  | ok sch =>
    rw [hs] at h
    simp only [Except.ok.injEq] at h
    rw [← h]
    exact ⟨rfl, fun c₁ c₂ => rfl⟩

/-- C9 witness: the amended theorem at a concrete null-token list. -/
theorem csv_null_tokens_apply_to_all_columns_witness :
    ({ infer_schema_length := none, has_header := true,
       try_parse_dates := false, n_rows := none, delimiter := 44,
       skip_rows := 0, projection := none, rechunk := true,
       encoding := CsvEncoding.Utf8, columns := none, dtypes := some [],
       null_values := some (.AllColumns ["NA", "null"]),
       end_of_line_char := 10 } : CsvReaderOptions).null_values =
      some (NullValues.AllColumns ["NA", "null"]) ∧
    ∀ c₁ c₂, nullTokensFor (NullValues.AllColumns ["NA", "null"]) c₁ =
      nullTokensFor (NullValues.AllColumns ["NA", "null"]) c₂ :=
  csv_null_tokens_apply_to_all_columns none true none 0 none 44 true none []
    "utf8" ["NA", "null"] false none _ rfl

/-- C10: building the cloud writer from a target with no bucket name does not
fail: the placeholder bucket name "explorer-default-bucket-name" is
substituted and virtual-hosted-style addressing is switched on; with a bucket
name present, that name is used and virtual-hosted-style addressing is not
forced. -/
theorem build_aws_s3_cloud_writer_bucket_policy (e : ExS3Entry) :
    (e.config.bucket = none →
      ∃ w, build_aws_s3_cloud_writer e = .ok w ∧
        w.object_store.bucket = "explorer-default-bucket-name" ∧
        w.object_store.virtual_hosted_style_request = true) ∧
    (∀ b, e.config.bucket = some b →
      ∃ w, build_aws_s3_cloud_writer e = .ok w ∧
        w.object_store.bucket = b ∧
        w.object_store.virtual_hosted_style_request = false) := by
  obtain ⟨⟨endpoint, region, ak, sk, token, bucket⟩, key⟩ := e
  constructor
  · intro hb
    simp only at hb
    subst hb
    cases token <;>
      exact ⟨_, rfl, rfl, rfl⟩
  · intro b hb
    simp only at hb
    subst hb
    cases token <;>
      exact ⟨_, rfl, rfl, rfl⟩

/-- C10 witness: one target without and one with a bucket name. -/
theorem build_aws_s3_cloud_writer_bucket_policy_witness :
    (∃ w, build_aws_s3_cloud_writer
        ⟨⟨"https://b.s3.amazonaws.com", "us-east-1", "id", "secret", none,
          none⟩, "k"⟩ = .ok w ∧
      w.object_store.bucket = "explorer-default-bucket-name" ∧
      w.object_store.virtual_hosted_style_request = true) ∧
    (∃ w, build_aws_s3_cloud_writer
        ⟨⟨"https://s3.amazonaws.com", "us-east-1", "id", "secret", none,
          some "mybucket"⟩, "k"⟩ = .ok w ∧
      w.object_store.bucket = "mybucket" ∧
      w.object_store.virtual_hosted_style_request = false) :=
  ⟨(build_aws_s3_cloud_writer_bucket_policy
      ⟨⟨"https://b.s3.amazonaws.com", "us-east-1", "id", "secret", none,
        none⟩, "k"⟩).1 rfl,
   (build_aws_s3_cloud_writer_bucket_policy
      ⟨⟨"https://s3.amazonaws.com", "us-east-1", "id", "secret", none,
        some "mybucket"⟩, "k"⟩).2 "mybucket" rfl⟩

end Explorer
